import Mathlib

/-!  Verification development for the gpt-oss chat service.

The Python sources `gptoss_model.py` and `app.py` are shallowly embedded:
text is modelled as `List Char`, pandas tables as column-major lists of
cells, the Flask session store as an association list, and the `/chat`
handler as a pure state-passing function.  Response generation inside the
handler is a parameter returning `Except`, so that the `try/except` around
`generate_response` is expressible; the deployed generator never fails.  -/

/-- Text is modelled as a list of characters. -/
abbrev Str := List Char

/-- View of a Lean string literal in the character-list model. -/
def ofS (s : String) : Str := s.data

/-- Python `str.lower()` (character-wise case folding). -/
def lower (s : Str) : Str := s.map Char.toLower

/-- The newline character. -/
def nlc : Char := Char.ofNat 10

/-- Python substring test `nd in hay` (second argument is the needle). -/
def containsSub : Str → Str → Bool
  | [], nd => nd.isPrefixOf []
  | c :: t, nd => nd.isPrefixOf (c :: t) || containsSub t nd

/-- Helper for Python `str.find`: first position at which `nd` occurs,
counting from the accumulator `i`. -/
def findSubAux (nd : Str) : Str → Nat → Option Nat
  | [], i => if nd.isPrefixOf [] then some i else none
  | c :: t, i => if nd.isPrefixOf (c :: t) then some i else findSubAux nd t (i + 1)

/-- Python `content.find(sub)`: index of the first occurrence, or `-1`. -/
def pyFind (content sub : Str) : Int :=
  match findSubAux sub content 0 with
  | some i => (i : Int)
  | none => -1

/-- Python `content.find(sub, start)`. -/
def pyFindFrom (content sub : Str) (start : Nat) : Int :=
  match findSubAux sub (content.drop start) 0 with
  | some i => ((start + i : Nat) : Int)
  | none => -1

/-- Clamp a Python slice bound to `[0, n]`, resolving negative indices. -/
def pyIdx (i : Int) (n : Nat) : Nat :=
  if i < 0 then ((n : Int) + i).toNat else min i.toNat n

/-- Python slice `s[a:b]`, with possibly negative bounds. -/
def pySlice (s : Str) (a b : Int) : Str :=
  (s.take (pyIdx b s.length)).drop (pyIdx a s.length)

/-- Python `str.strip()` (whitespace trimming on both ends). -/
def pyStrip (s : Str) : Str :=
  ((s.dropWhile Char.isWhitespace).reverse.dropWhile Char.isWhitespace).reverse

/-- A modelled fragment of Python regular expressions as interpreted by
`pandas.Series.str.contains(query, case=False)` (whose default is
`regex=True`): a pattern character is either the wildcard `.`, matching any
character, or a literal matched up to case.  On patterns built from `.` and
characters outside `reMeta` this agrees with `re` exactly; patterns using
the remaining metacharacters (`*`, `+`, `?`, ...) are outside the modelled
fragment, and no theorem below evaluates the matcher on them: general
statements restrict their queries to characters outside `reMeta`.  This
tries the pattern at the current position only. -/
def reMatchHere : Str → Str → Bool
  | [], _ => true
  | _ :: _, [] => false
  | p :: ps, c :: cs => (p == '.' || p.toLower == c.toLower) && reMatchHere ps cs

/-- Case-insensitive `re.search`: try the pattern at every start position. -/
def reSearch (pat : Str) : Str → Bool
  | [] => reMatchHere pat []
  | c :: cs => reMatchHere pat (c :: cs) || reSearch pat cs

/-- The characters Python `re` treats specially outside a character class:
a query avoiding all of them is matched purely literally by `re.search`. -/
def reMeta : Str := ofS ".^$*+?\x7b\x7d[]\\|()"

/-- One cell of a loaded table: a string value, a missing value (`NaN`), or
a non-string (numeric) value. -/
inductive Cell where
  | str (s : Str)
  | na
  | num (n : Int)
deriving DecidableEq

/-- One column of a loaded table: its name, whether its dtype is `object`
(the pandas dtype of string columns), and its cells in row order. -/
structure Column where
  name : Str
  isObj : Bool
  cells : List Cell
deriving DecidableEq

/-- A loaded table, column-major as a pandas `DataFrame`. -/
abbrev Table := List Column

/-- The loaded mapping `{filename: DataFrame}` in insertion order. -/
abbrev CsvData := List (Str × Table)

/-- One search hit of `search_csv_data`: source file, matching column, and
the full matching row as produced by `row.to_dict()`. -/
structure SearchHit where
  file : Str
  column : Str
  data : List (Str × Cell)
deriving DecidableEq

/-- Python `row.to_dict()` for row index `i` of a table. -/
def rowToDict (t : Table) (i : Nat) : List (Str × Cell) :=
  t.map fun c => (c.name, c.cells.getD i Cell.na)

/-- The test `df[col].str.contains(query, case=False, na=False)` applies to
one cell: missing and non-string cells never match (`na=False`). -/
def cellMatches (query : Str) : Cell → Bool
  | Cell.str s => reSearch query s
  | Cell.na => false
  | Cell.num _ => false

/-- Embeds `GPTOSSModel.search_csv_data`: for every `object` column of every
loaded table, return one hit per matching row, in table, column, row
order. -/
def search_csv_data (csv_data : CsvData) (query : Str) : List SearchHit :=
  csv_data.flatMap fun ft =>
    ft.2.flatMap fun col =>
      if col.isObj then
        (col.cells.enum.filter fun ic => cellMatches query ic.2).map
          fun ic => ⟨ft.1, col.name, rowToDict ft.2 ic.1⟩
      else []

/-- Embeds the `/search_csv` route of `app.py`: an empty (falsy) query
short-circuits to `[]`, otherwise at most the first 10 hits are returned. -/
def search_csv_route (csv_data : CsvData) (q : Str) : List SearchHit :=
  if q = [] then [] else (search_csv_data csv_data q).take 10

/-- Spec-side definition, for comparison with the code: `q` occurs in `v` as
a case-insensitive literal substring, the matching the spec describes
(`search(query=q)` matches are case-insensitive substring matches only). -/
def substrCI (v q : Str) : Bool := containsSub (lower v) (lower q)

/-- Spec-side cell test: literal substring matching, missing cells never
match. -/
def cellMatchesSub (query : Str) : Cell → Bool
  | Cell.str s => substrCI s query
  | Cell.na => false
  | Cell.num _ => false

/-- Spec-side search, following the spec words: identical traversal to
`search_csv_data` but with literal substring matching. -/
def search_spec_substr (csv_data : CsvData) (query : Str) : List SearchHit :=
  csv_data.flatMap fun ft =>
    ft.2.flatMap fun col =>
      if col.isObj then
        (col.cells.enum.filter fun ic => cellMatchesSub query ic.2).map
          fun ic => ⟨ft.1, col.name, rowToDict ft.2 ic.1⟩
      else []

/-- Whether a cell holds a present string value. -/
def cellIsStr : Cell → Bool
  | Cell.str _ => true
  | Cell.na => false
  | Cell.num _ => false

/-- Every present string cell of every `object` column, as a hit list: what
the empty query retrieves through the regex `""`, which matches anywhere. -/
def allTextHits (csv_data : CsvData) : List SearchHit :=
  csv_data.flatMap fun ft =>
    ft.2.flatMap fun col =>
      if col.isObj then
        (col.cells.enum.filter fun ic => cellIsStr ic.2).map
          fun ic => ⟨ft.1, col.name, rowToDict ft.2 ic.1⟩
      else []

/-- The fixed trigger-to-reply table of `_generate_text_response`, in source
(dict insertion) order. -/
def responses : List (Str × Str) :=
  [(ofS "hello", ofS "Hello! I\x27m your GPT-OSS assistant. How can I help you today?"),
   (ofS "hi", ofS "Hi there! I can help you analyze data, images, and answer questions."),
   (ofS "help", ofS "I can:\n• Analyze CSV data\n• Process images\n• Answer questions\n• Provide Earth Observation insights"),
   (ofS "what can you do", ofS "I\x27m a multimodal AI assistant that can:\n📊 Analyze CSV data\n🖼️ Process and describe images\n🌍 Provide Earth Observation analysis\n💬 Answer questions using available data")]

/-- The `for key, response in responses.items()` loop: first trigger that is
a substring of the lowered input wins. -/
def respLoop (lowerInput : Str) : List (Str × Str) → Option Str
  | [] => none
  | kr :: rest => if containsSub lowerInput kr.1 then some kr.2 else respLoop lowerInput rest

/-- Embeds `GPTOSSModel._generate_text_response`. -/
def generate_text_response (text_input : Str) : Str :=
  match respLoop (lower text_input) responses with
  | some r => r
  | none => ofS "I understand you\x27re asking about: " ++ text_input ++
      ofS ". I can help you analyze this using available data and models."

/-- Python `repr` of a string as rendered inside `str(dict)`; the modelled
fragment assumes values without quotes or backslashes to escape. -/
def pyReprStr (s : Str) : Str := Char.ofNat 39 :: s ++ [Char.ofNat 39]

/-- Python rendering of one dict value inside `str(dict)` (floats other than
`NaN` are not modelled; numeric cells are integers). -/
def cellStr : Cell → Str
  | Cell.str s => pyReprStr s
  | Cell.na => ofS "nan"
  | Cell.num n => ofS (toString n)

/-- Comma-space separated join, as in Python dict rendering. -/
def joinSep : List Str → Str
  | [] => []
  | [x] => x
  | x :: y :: rest => x ++ ofS ", " ++ joinSep (y :: rest)

/-- Python `str(row.to_dict())`. -/
def pyStrDict (d : List (Str × Cell)) : Str :=
  Char.ofNat 123 ::
    (joinSep (d.map fun kv => pyReprStr kv.1 ++ ofS ": " ++ cellStr kv.2) ++ [Char.ofNat 125])

/-- One line of the context block of `_generate_response_with_csv`:
the f-string with the 1-based index, source file and stringified row. -/
def hitLine (i : Nat) (h : SearchHit) : Str :=
  ofS (Nat.repr (i + 1)) ++ ofS ". From " ++ h.file ++ ofS ": " ++ pyStrDict h.data ++ [nlc]

/-- The `csv_context` accumulator of `_generate_response_with_csv`: a header
plus one line per hit, limited to the first 3 hits. -/
def csv_context (hits : List SearchHit) : Str :=
  ofS "Relevant data found:\n" ++ ((hits.take 3).enum.flatMap fun ih => hitLine ih.1 ih.2)

/-- The combined prompt template of `_generate_response_with_csv`. -/
def csvPrompt (ctx ia text : Str) : Str :=
  ofS "Based on the following data and context:\n\n" ++ ctx ++
    ofS "\n\nImage Analysis: " ++ ia ++ ofS "\n\nUser Question: " ++ text ++
    ofS "\n\nPlease provide a helpful response using the available data."

/-- Embeds `GPTOSSModel._generate_response_with_csv`. -/
def generate_response_with_csv (text : Str) (hits : List SearchHit) (ia : Str) : Str :=
  generate_text_response (csvPrompt (csv_context hits) ia text)

/-- Embeds `GPTOSSModel._generate_response_with_image`. -/
def generate_response_with_image (text ia : Str) : Str :=
  generate_text_response
    (ofS "Image Analysis: " ++ ia ++ ofS "\n\nUser Question: " ++ text ++
      ofS "\n\nPlease provide a response based on the image analysis.")

/-- The file system visible to the model: path to text content. -/
abbrev FileSys := List (Str × Str)

/-- Association lookup of a path. -/
def flookup : FileSys → Str → Option Str
  | [], _ => none
  | pv :: rest, p => if pv.1 = p then some pv.2 else flookup rest p

/-- Python `os.path.exists`. -/
def fsExists (fs : FileSys) (p : Str) : Bool := (flookup fs p).isSome

/-- Python `os.path.basename`: the part after the last slash. -/
def basename (p : Str) : Str := (p.reverse.takeWhile fun c => c != '/').reverse

/-- Embeds `GPTOSSModel.analyze_image`.  Opening a missing file raises in
Python and the handler catches every exception, returning the error
description; `desc_start` is nonnegative here because the marker was found,
so its `toNat` view is exact. -/
def analyze_image (fs : FileSys) (image_path : Str) : Str :=
  if (ofS ".txt").isSuffixOf image_path then
    match flookup fs image_path with
    | none =>
        ofS "Error analyzing image: [Errno 2] No such file or directory: \x27" ++
          image_path ++ ofS "\x27"
    | some content =>
        if containsSub content (ofS "Description:") then
          let desc_start : Int := pyFind content (ofS "Description:") + 12
          let desc_end : Int := pyFindFrom content (ofS "\n") desc_start.toNat
          pyStrip (pySlice content desc_start desc_end)
        else ofS "Image placeholder file"
  else ofS "Analyzed image: " ++ basename image_path

/-- The `image_analysis` value computed by `generate_response`: empty unless
an image path is given (and truthy) and the file exists. -/
def imageAnalysisOf (fs : FileSys) (image_path : Option Str) : Str :=
  match image_path with
  | none => []
  | some p => if !p.isEmpty && fsExists fs p then analyze_image fs p else []

/-- Embeds `GPTOSSModel.generate_response`: search the tables when requested
and some are loaded, analyze the image when present, then dispatch on the
available data. -/
def generate_response (csv_data : CsvData) (fs : FileSys) (text_input : Str)
    (image_path : Option Str) (use_csv : Bool) : Str :=
  let csv_results :=
    if use_csv && !csv_data.isEmpty then search_csv_data csv_data text_input else []
  let image_analysis := imageAnalysisOf fs image_path
  if !csv_results.isEmpty then generate_response_with_csv text_input csv_results image_analysis
  else if !image_analysis.isEmpty then generate_response_with_image text_input image_analysis
  else generate_text_response text_input

/-- One stored chat turn, as built by `ChatSession.add_message` (the request
timestamp is threaded as a parameter). -/
structure Message where
  role : Str
  content : Str
  timestamp : Str
  image_path : Option Str
  csv_used : Bool
deriving DecidableEq

/-- Append a turn and keep only the last 50 (`self.messages[-50:]`). -/
def appendTrunc (msgs : List Message) (m : Message) : List Message :=
  let msgs2 := msgs ++ [m]
  if msgs2.length > 50 then msgs2.drop (msgs2.length - 50) else msgs2

/-- Embeds `ChatSession.add_message`. -/
def add_message (msgs : List Message) (role content : Str) (image_path : Option Str)
    (csv_used : Bool) (now : Str) : List Message :=
  appendTrunc msgs ⟨role, content, now, image_path, csv_used⟩

/-- Embeds `ChatSession` (messages plus identification data). -/
structure ChatSession where
  session_id : Str
  messages : List Message
  created_at : Str
deriving DecidableEq

/-- The process-wide `chat_sessions` dict in insertion order. -/
abbrev Sessions := List (Str × ChatSession)

/-- Dict lookup on the session store. -/
def slookup : Sessions → Str → Option ChatSession
  | [], _ => none
  | kv :: rest, sid => if kv.1 = sid then some kv.2 else slookup rest sid

/-- Replace the message list of the session stored under `sid`. -/
def updateS (store : Sessions) (sid : Str) (msgs : List Message) : Sessions :=
  store.map fun p =>
    if p.1 = sid then (p.1, ⟨p.2.session_id, msgs, p.2.created_at⟩) else p

/-- The wire reply of `POST /chat`: either a JSON error with its status code
or the success payload. -/
inductive ChatReply where
  | err (status : Nat) (msg : Str)
  | ok (response : Str) (session_id : Str) (message_count : Nat) (csv_used : Bool)
deriving DecidableEq

/-- Flask truthiness of `request.files.get('image')`: absent, or a storage
with an empty filename, is falsy. -/
def imgFalsy : Option Str → Bool
  | none => true
  | some fn => fn.isEmpty

/-- The upload path `os.path.join('static/uploads', f"{sid}_{ts}_{name}")`,
assigned only when a file with a nonempty filename is present. -/
def image_path_of (sid nowF : Str) (img : Option Str) : Option Str :=
  match img with
  | none => none
  | some fn =>
      if fn.isEmpty then none
      else some (ofS "static/uploads/" ++ sid ++ ofS "_" ++ nowF ++ ofS "_" ++ fn)

/-- The parsed `use_csv` form field:
`request.form.get('use_csv', 'false').lower() == 'true'`. -/
def use_csv_of (raw : Option Str) : Bool := lower (raw.getD (ofS "false")) == ofS "true"

/-- Embeds the `POST /chat` handler of `app.py`.  `cookie` is the session id
of the Flask cookie, `msg` the raw `message` form field, `img` the filename
of the uploaded file when one is present, `raw` the raw `use_csv` field, and
`gen` the response generation (an `Except` so the `try/except` is
expressible). -/
def chat (store : Sessions) (cookie : Option Str) (msg : Str) (img : Option Str)
    (raw : Option Str) (now nowF : Str)
    (gen : Str → Option Str → Bool → Except Str Str) : Sessions × ChatReply :=
  match cookie with
  | none => (store, ChatReply.err 400 (ofS "No session found"))
  | some sid =>
    let s0 := match slookup store sid with
      | some s => s
      | none => ⟨sid, [], now⟩
    let store1 := match slookup store sid with
      | some _ => store
      | none => store ++ [(sid, s0)]
    let user_message := pyStrip msg
    if user_message.isEmpty && imgFalsy img then
      (store1, ChatReply.err 400 (ofS "No message or image provided"))
    else
      let use_csv := use_csv_of raw
      let image_path := image_path_of sid nowF img
      let msgs1 := add_message s0.messages (ofS "user") user_message image_path false now
      match gen user_message image_path use_csv with
      | Except.ok response =>
          let msgs2 := add_message msgs1 (ofS "assistant") response none use_csv now
          (updateS store1 sid msgs2, ChatReply.ok response sid msgs2.length use_csv)
      | Except.error e =>
          let error_msg := ofS "Error generating response: " ++ e
          let msgs2 := add_message msgs1 (ofS "assistant") error_msg none false now
          (updateS store1 sid msgs2, ChatReply.err 500 error_msg)

/-- The deployed generator wired into the handler: `generate_response`,
which never fails in the model. -/
def chatGen (csv_data : CsvData) (fs : FileSys) : Str → Option Str → Bool → Except Str Str :=
  fun t ip uc => Except.ok (generate_response csv_data fs t ip uc)

/-- The last-50 truncation step of `add_message`, as a standalone map on the
message list. -/
def truncLast50 (msgs : List Message) : List Message :=
  if msgs.length > 50 then msgs.drop (msgs.length - 50) else msgs

/-- A one-table, one-column, one-row store whose only value is `"x"`. -/
def exCsvEmptyQ : CsvData := [(ofS "a.csv", [⟨ofS "c", true, [Cell.str (ofS "x")]⟩])]

/-- A one-table, one-column, one-row store whose only value is `"abc"`. -/
def exCsvDot : CsvData := [(ofS "b.csv", [⟨ofS "c", true, [Cell.str (ofS "abc")]⟩])]

/-- A one-table, one-column, one-row store whose only value is `"foo"`. -/
def exCsvFoo : CsvData := [(ofS "d.csv", [⟨ofS "c", true, [Cell.str (ofS "foo")]⟩])]

/-- A concrete chat turn used to evaluate the truncation theorems. -/
def exMsg : Message := ⟨ofS "user", ofS "m", ofS "t", none, false⟩

/-- A concrete empty session under id `"s1"`. -/
def exSess : ChatSession := ⟨ofS "s1", [], ofS "t0"⟩

/-- A concrete store containing only `exSess`. -/
def exStore : Sessions := [(ofS "s1", exSess)]

/-- A generator that always succeeds with the fixed reply `"r"`. -/
def exGenOk : Str → Option Str → Bool → Except Str Str :=
  fun _ _ _ => Except.ok (ofS "r")

/-- A generator that always raises with message `"boom"`. -/
def exGenErr : Str → Option Str → Bool → Except Str Str :=
  fun _ _ _ => Except.error (ofS "boom")

/-- A concrete file system holding one placeholder image description whose
`Description:` marker is not followed by any newline. -/
def exFs : FileSys := [(ofS "img.txt", ofS "Description:cloudy")]

/-! ### Lemmas about the substring test -/

theorem nil_of_isPrefixOf_nil {nd : Str} (h : nd.isPrefixOf ([] : Str) = true) : nd = [] := by
  cases nd with
  | nil => rfl
  | cons c t => simp [List.isPrefixOf] at h

theorem isPrefixOf_append_right : ∀ (p l x : Str), p.isPrefixOf l = true → p.isPrefixOf (l ++ x) = true := by
  intro p
  induction p with
  | nil => intro l x _; simp [List.isPrefixOf]
  | cons a as ih =>
    intro l x h
    cases l with
    | nil => simp [List.isPrefixOf] at h
    | cons b bs =>
      simp only [List.isPrefixOf, Bool.and_eq_true, beq_iff_eq] at h
      simp only [List.cons_append, List.isPrefixOf, Bool.and_eq_true, beq_iff_eq]
      exact ⟨h.1, ih bs x h.2⟩

theorem isPrefixOf_self_app : ∀ (l x : Str), l.isPrefixOf (l ++ x) = true := by
  intro l
  induction l with
  | nil => intro x; simp [List.isPrefixOf]
  | cons a as ih =>
    intro x
    simp [List.cons_append, List.isPrefixOf, ih x]

theorem containsSub_nil_nd : ∀ (hay : Str), containsSub hay [] = true := by
  intro hay
  cases hay with
  | nil => rfl
  | cons c t => simp [containsSub, List.isPrefixOf]

theorem containsSub_of_isPrefixOf {hay nd : Str} (h : nd.isPrefixOf hay = true) :
    containsSub hay nd = true := by
  cases hay with
  | nil => simpa [containsSub] using h
  | cons c t => simp [containsSub, h]

theorem ct_cons {b nd : Str} (c : Char) (h : containsSub b nd = true) :
    containsSub (c :: b) nd = true := by
  simp [containsSub, h]

theorem ct_app : ∀ (a : Str) {b nd : Str}, containsSub b nd = true → containsSub (a ++ b) nd = true := by
  intro a
  induction a with
  | nil => intro b nd h; simpa using h
  | cons x a' ih =>
    intro b nd h
    simpa [List.cons_append] using ct_cons x (ih h)

theorem ct_left : ∀ (a : Str) {b nd : Str}, containsSub a nd = true → containsSub (a ++ b) nd = true := by
  intro a
  induction a with
  | nil =>
    intro b nd h
    have : nd = [] := nil_of_isPrefixOf_nil (by simpa [containsSub] using h)
    subst this
    simpa using containsSub_nil_nd b
  | cons x a' ih =>
    intro b nd h
    simp only [containsSub, Bool.or_eq_true] at h
    rcases h with h | h
    · exact containsSub_of_isPrefixOf (by simpa [List.cons_append] using isPrefixOf_append_right nd (x :: a') b h)
    · simpa [List.cons_append] using ct_cons x (ih h)

theorem cf_left {a b nd : Str} (h : containsSub (a ++ b) nd = false) : containsSub a nd = false := by
  cases hc : containsSub a nd with
  | false => rfl
  | true => rw [ct_left a hc] at h; exact absurd h (by simp)

theorem cf_right {a b nd : Str} (h : containsSub (a ++ b) nd = false) : containsSub b nd = false := by
  cases hc : containsSub b nd with
  | false => rfl
  | true => rw [ct_app a hc] at h; exact absurd h (by simp)

theorem pre_split : ∀ (nd a : Str) {c : Char} {b : Str},
    nd.isPrefixOf (a ++ c :: b) = true → nd.isPrefixOf a = true ∨ c ∈ nd := by
  intro nd
  induction nd with
  | nil => intro a c b _; left; simp [List.isPrefixOf]
  | cons d nd' ih =>
    intro a c b h
    cases a with
    | nil =>
      right
      simp only [List.nil_append, List.isPrefixOf, Bool.and_eq_true, beq_iff_eq] at h
      simp [h.1]
    | cons x a' =>
      simp only [List.cons_append, List.isPrefixOf, Bool.and_eq_true, beq_iff_eq] at h
      rcases ih a' h.2 with h1 | h2
      · left
        simp only [List.isPrefixOf, Bool.and_eq_true, beq_iff_eq]
        exact ⟨h.1, h1⟩
      · right
        simp [h2]

theorem sep_split : ∀ (a : Str) {c : Char} {b nd : Str},
    containsSub (a ++ c :: b) nd = true →
    c ∈ nd ∨ containsSub a nd = true ∨ containsSub b nd = true := by
  intro a
  induction a with
  | nil =>
    intro c b nd h
    simp only [List.nil_append, containsSub, Bool.or_eq_true] at h
    rcases h with h | h
    · rcases pre_split nd [] (by simpa using h) with hp | hc
      · have : nd = [] := nil_of_isPrefixOf_nil hp
        subst this
        exact Or.inr (Or.inr (containsSub_nil_nd b))
      · exact Or.inl hc
    · exact Or.inr (Or.inr h)
  | cons x a' ih =>
    intro c b nd h
    simp only [List.cons_append, containsSub, Bool.or_eq_true] at h
    rcases h with h | h
    · rcases pre_split nd (x :: a') (by simpa [List.cons_append] using h) with hp | hc
      · exact Or.inr (Or.inl (containsSub_of_isPrefixOf hp))
      · exact Or.inl hc
    · rcases ih h with h1 | h2 | h3
      · exact Or.inl h1
      · exact Or.inr (Or.inl (ct_cons x h2))
      · exact Or.inr (Or.inr h3)

theorem nc_app (a : Str) (c : Char) (b nd : Str) (hc : c ∈ nd → False)
    (ha : containsSub a nd = false) (hb : containsSub b nd = false) :
    containsSub (a ++ c :: b) nd = false := by
  cases h : containsSub (a ++ c :: b) nd with
  | false => rfl
  | true =>
    rcases sep_split a h with h1 | h2 | h3
    · exact absurd h1 hc
    · rw [h2] at ha; exact absurd ha (by simp)
    · rw [h3] at hb; exact absurd hb (by simp)

theorem nc_cons (c : Char) (b nd : Str) (hc : c ∈ nd → False)
    (hb : containsSub b nd = false) : containsSub (c :: b) nd = false := by
  cases nd with
  | nil => rw [containsSub_nil_nd b] at hb; exact absurd hb (by simp)
  | cons d t =>
    exact nc_app [] c b (d :: t) hc (by simp [containsSub, List.isPrefixOf]) hb

/-! ### Lemmas about the tabular search -/

theorem flatMap_congr_fun {α β : Type} (l : List α) (f g : α → List β)
    (h : ∀ a ∈ l, f a = g a) : l.flatMap f = l.flatMap g := by
  induction l with
  | nil => rfl
  | cons x t ih =>
    simp only [List.flatMap_cons]
    rw [h x (List.mem_cons_self x t), ih fun a ha => h a (List.mem_cons_of_mem x ha)]

theorem reSearch_empty_pat : ∀ (s : Str), reSearch [] s = true := by
  intro s
  cases s with
  | nil => rfl
  | cons c cs => simp [reSearch, reMatchHere]

theorem cellMatches_nil (c : Cell) : cellMatches [] c = cellIsStr c := by
  cases c <;> simp [cellMatches, cellIsStr, reSearch_empty_pat]

theorem search_empty_eq_allTextHits (csv_data : CsvData) :
    search_csv_data csv_data [] = allTextHits csv_data := by
  simp only [search_csv_data, allTextHits]
  refine flatMap_congr_fun _ _ _ ?_
  intro ft _
  refine flatMap_congr_fun _ _ _ ?_
  intro col _
  cases hobj : col.isObj
  · simp
  · simp only [if_pos rfl]
    rw [List.filter_congr fun ic _ => cellMatches_nil ic.2]

theorem reMatchHere_noDot : ∀ (pat s : Str), '.' ∉ pat →
    reMatchHere pat s = (lower pat).isPrefixOf (lower s) := by
  intro pat
  induction pat with
  | nil => intro s _; simp [reMatchHere, lower, List.isPrefixOf]
  | cons p ps ih =>
    intro s hd
    cases s with
    | nil => simp [reMatchHere, lower, List.isPrefixOf]
    | cons c cs =>
      have hp : (p == '.') = false := by
        cases hpe : p == '.' with
        | false => rfl
        | true =>
          have hpd : p = '.' := beq_iff_eq.mp hpe
          exact absurd (by rw [hpd]; exact List.mem_cons_self '.' ps) hd
      simp only [reMatchHere, hp, Bool.false_or, lower, List.map_cons, List.isPrefixOf]
      rw [ih cs fun h => hd (List.mem_cons_of_mem p h)]
      simp [lower]

theorem reSearch_noDot (pat : Str) (hd : '.' ∉ pat) :
    ∀ (s : Str), reSearch pat s = substrCI s pat := by
  intro s
  induction s with
  | nil =>
    simp only [reSearch, substrCI, lower, List.map_nil, containsSub]
    exact reMatchHere_noDot pat [] hd
  | cons c cs ih =>
    simp only [reSearch, substrCI, lower, List.map_cons, containsSub]
    rw [reMatchHere_noDot pat (c :: cs) hd, ih]
    simp [substrCI, lower]

theorem cellMatches_noDot (q : Str) (hd : '.' ∉ q) (c : Cell) :
    cellMatches q c = cellMatchesSub q c := by
  cases c <;> simp [cellMatches, cellMatchesSub, reSearch_noDot q hd]

/-- Claim C1, counterexample: on the store `exCsvEmptyQ` the search
operation applied to the empty query does not return the empty hit list
(the empty pattern matches every present string cell), contradicting
`search("") = []` for every loaded table mapping. -/
theorem claim_C1_cex : search_csv_data exCsvEmptyQ (ofS "") ≠ [] := by decide

/-- Claim C1, amended: the `/search_csv` endpoint returns no hits for an
empty query (the handler short-circuits before searching), while the
underlying `search_csv_data` applied to the empty query returns one hit for
every present string cell of every text-typed column. -/
theorem claim_C1 : ∀ csv_data : CsvData,
    search_csv_route csv_data (ofS "") = [] ∧
    search_csv_data csv_data (ofS "") = allTextHits csv_data := by
  intro csv_data
  exact ⟨rfl, search_empty_eq_allTextHits csv_data⟩

/-- Claim C2, counterexample: the query `"a.c"` is not a case-insensitive
literal substring of the only stored value `"abc"`, and the spec-side
substring search accordingly returns nothing, yet `search_csv_data` returns
this row: the query is interpreted as a regular expression. -/
theorem claim_C2_cex :
    (search_csv_data exCsvDot (ofS "a.c")).length = 1 ∧
    substrCI (ofS "abc") (ofS "a.c") = false ∧
    search_spec_substr exCsvDot (ofS "a.c") = [] := by decide

/-- Claim C2, amended: matching is case-insensitive regular-expression
search (the pandas `str.contains` default); for queries containing no regex
metacharacter (no character of `reMeta`) it coincides with case-insensitive
literal substring containment, so exactly the rows with a matching
text-typed value are returned. -/
theorem claim_C2 : ∀ (csv_data : CsvData) (q : Str), (∀ c ∈ q, c ∉ reMeta) →
    search_csv_data csv_data q = search_spec_substr csv_data q := by
  intro csv_data q hm
  have hd : '.' ∉ q := fun hdq => absurd (by decide : '.' ∈ reMeta) (hm '.' hdq)
  simp only [search_csv_data, search_spec_substr]
  refine flatMap_congr_fun _ _ _ ?_
  intro ft _
  refine flatMap_congr_fun _ _ _ ?_
  intro col _
  cases hobj : col.isObj
  · simp
  · simp only [if_pos rfl]
    rw [List.filter_congr fun ic _ => cellMatches_noDot q hd ic.2]

/-- Claim C2, witness: the amended equivalence evaluated on the concrete
store `exCsvDot` and the metacharacter-free query `"ab"`. -/
theorem claim_C2_w : search_csv_data exCsvDot (ofS "ab") = search_spec_substr exCsvDot (ofS "ab") :=
  claim_C2 exCsvDot (ofS "ab") (by decide)

/-! ### Lemmas about session truncation -/

theorem truncLast50_eq_drop (l : List Message) :
    truncLast50 l = l.drop (l.length - 50) := by
  unfold truncLast50
  by_cases h : l.length > 50
  · rw [if_pos h]
  · rw [if_neg h]
    have h0 : l.length - 50 = 0 := by omega
    rw [h0, List.drop_zero]

theorem drop_append_drop {α : Type} (a b : List α) (k j : Nat) (hk : k ≤ a.length) :
    (a.drop k ++ b).drop j = (a ++ b).drop (k + j) := by
  conv_rhs => rw [← List.take_append_drop k a]
  rw [List.append_assoc]
  rw [show k + j = (a.take k).length + j by rw [List.length_take]; omega]
  rw [List.drop_append]

theorem appendTrunc_eq (msgs : List Message) (m : Message) :
    appendTrunc msgs m = truncLast50 (msgs ++ [m]) := rfl

theorem truncLast50_append (a b : List Message) :
    truncLast50 (truncLast50 a ++ b) = truncLast50 (a ++ b) := by
  rw [truncLast50_eq_drop a, truncLast50_eq_drop, truncLast50_eq_drop (a ++ b)]
  rw [drop_append_drop a b (a.length - 50) _ (by omega)]
  congr 1
  simp only [List.length_append, List.length_drop]
  omega

theorem foldl_appendTrunc (ms : List Message) : ∀ (init : List Message),
    List.foldl appendTrunc (truncLast50 init) ms = truncLast50 (init ++ ms) := by
  induction ms with
  | nil => intro init; rw [List.foldl_nil, List.append_nil]
  | cons m rest ih =>
    intro init
    rw [List.foldl_cons, appendTrunc_eq, truncLast50_append init [m], ih (init ++ [m]),
      List.append_assoc, List.singleton_append]

/-- Claim C3: starting from any session with at most 50 stored turns,
appending more than 50 turns leaves exactly the most recent 50 of them in
their original relative order, and each single append preserves the
invariant that at most 50 turns are stored. -/
theorem claim_C3 :
    (∀ (init ms : List Message), init.length ≤ 50 → 50 < ms.length →
      List.foldl appendTrunc init ms = ms.drop (ms.length - 50)) ∧
    (∀ (msgs : List Message) (m : Message), msgs.length ≤ 50 →
      (appendTrunc msgs m).length ≤ 50) := by
  constructor
  · intro init ms hinit hms
    have h0 : truncLast50 init = init := by
      unfold truncLast50
      rw [if_neg (by omega)]
    rw [← h0, foldl_appendTrunc ms init, truncLast50_eq_drop]
    rw [show (init ++ ms).length - 50 = init.length + (ms.length - 50) by
      simp only [List.length_append]; omega]
    rw [List.drop_append]
  · intro msgs m h
    show (if (msgs ++ [m]).length > 50 then
        (msgs ++ [m]).drop ((msgs ++ [m]).length - 50) else (msgs ++ [m])).length ≤ 50
    by_cases hl : (msgs ++ [m]).length > 50
    · rw [if_pos hl, List.length_drop]; omega
    · rw [if_neg hl]; omega

/-- Claim C3, witness: appending 51 concrete turns to an empty session
leaves the last 50, and one append to the empty session stays within the
bound. -/
theorem claim_C3_w :
    List.foldl appendTrunc [] (List.replicate 51 exMsg) =
      (List.replicate 51 exMsg).drop ((List.replicate 51 exMsg).length - 50) ∧
    (appendTrunc [] exMsg).length ≤ 50 :=
  ⟨claim_C3.1 [] (List.replicate 51 exMsg) (by decide) (by decide),
   claim_C3.2 [] exMsg (by decide)⟩

/-! ### Lemmas about the keyword responder -/

theorem isPrefixOf_self : ∀ (l : Str), l.isPrefixOf l = true := by
  intro l
  induction l with
  | nil => rfl
  | cons a as ih => simp [List.isPrefixOf, ih]

theorem respLoop_eq_find (lt : Str) : ∀ (L : List (Str × Str)),
    respLoop lt L = (L.find? fun kr => containsSub lt kr.1).map Prod.snd := by
  intro L
  induction L with
  | nil => rfl
  | cons kr rest ih =>
    simp only [respLoop, List.find?]
    cases h : containsSub lt kr.1 with
    | true => simp [h]
    | false => simp [h, ih]

theorem respLoop_none (lt : Str) : ∀ (L : List (Str × Str)),
    (∀ kr ∈ L, containsSub lt kr.1 = false) → respLoop lt L = none := by
  intro L
  induction L with
  | nil => intro _; rfl
  | cons kr rest ih =>
    intro h
    simp only [respLoop]
    rw [h kr (List.mem_cons_self kr rest)]
    simp only [Bool.false_eq_true, if_false]
    exact ih fun a ha => h a (List.mem_cons_of_mem kr ha)

/-- Claim C4: the trigger table is exactly `["hello","hi","help","what can
you do"]` in that order, the responder lower-cases its input and answers
with the reply of the first trigger occurring as a substring of the lowered
input, and on `"hi, help me"` it answers the `"hi"` reply, which differs
from the `"help"` reply. -/
theorem claim_C4 :
    responses.map Prod.fst = [ofS "hello", ofS "hi", ofS "help", ofS "what can you do"] ∧
    (∀ (t : Str) (kr : Str × Str),
      (responses.find? fun p => containsSub (lower t) p.1) = some kr →
      generate_text_response t = kr.2) ∧
    generate_text_response (ofS "hi, help me") =
      ofS "Hi there! I can help you analyze data, images, and answer questions." ∧
    generate_text_response (ofS "hi, help me") ≠
      ofS "I can:\n• Analyze CSV data\n• Process images\n• Answer questions\n• Provide Earth Observation insights" := by
  refine ⟨by decide, ?_, by decide, by decide⟩
  intro t kr h
  unfold generate_text_response
  rw [respLoop_eq_find (lower t) responses, h]
  rfl

/-- Claim C4, witness: the first-match rule evaluated at the concrete input
`"hello friend"`. -/
theorem claim_C4_w : generate_text_response (ofS "hello friend") =
    ofS "Hello! I\x27m your GPT-OSS assistant. How can I help you today?" :=
  claim_C4.2.1 (ofS "hello friend")
    (ofS "hello", ofS "Hello! I\x27m your GPT-OSS assistant. How can I help you today?")
    (by decide)

/-- Claim C8: whenever no trigger phrase occurs in the lowered input, the
responder returns the default templated echo, which contains the original
un-lowercased input verbatim; in particular the reply for `"xyzzy"`
contains `"xyzzy"`. -/
theorem claim_C8 :
    (∀ t : Str, (∀ kr ∈ responses, containsSub (lower t) kr.1 = false) →
      generate_text_response t =
        ofS "I understand you\x27re asking about: " ++ t ++
          ofS ". I can help you analyze this using available data and models." ∧
      containsSub (generate_text_response t) t = true) ∧
    containsSub (generate_text_response (ofS "xyzzy")) (ofS "xyzzy") = true := by
  constructor
  · intro t h
    have he : generate_text_response t =
        ofS "I understand you\x27re asking about: " ++ t ++
          ofS ". I can help you analyze this using available data and models." := by
      unfold generate_text_response
      rw [respLoop_none (lower t) responses h]
    refine ⟨he, ?_⟩
    rw [he]
    exact ct_left _
      (ct_app (ofS "I understand you\x27re asking about: ")
        (containsSub_of_isPrefixOf (isPrefixOf_self t)))
  · decide

/-- Claim C8, witness: the echo property evaluated at the concrete
non-matching input `"qqq"`. -/
theorem claim_C8_w : (generate_text_response (ofS "qqq") =
    ofS "I understand you\x27re asking about: " ++ ofS "qqq" ++
      ofS ". I can help you analyze this using available data and models.") ∧
    containsSub (generate_text_response (ofS "qqq")) (ofS "qqq") = true :=
  claim_C8.1 (ofS "qqq") (by decide)

/-! ### Lemmas about the image description extraction -/

theorem findSubAux_isSome (nd : Str) : ∀ (hay : Str) (i : Nat),
    (findSubAux nd hay i).isSome = containsSub hay nd := by
  intro hay
  induction hay with
  | nil =>
    intro i
    cases h : nd.isPrefixOf ([] : Str) <;> simp [findSubAux, containsSub, h]
  | cons c t ih =>
    intro i
    cases h : nd.isPrefixOf (c :: t) with
    | true => simp [findSubAux, containsSub, h]
    | false => simp [findSubAux, containsSub, h, ih (i + 1)]

theorem pySlice_neg_one (s : Str) (k : Nat) :
    pySlice s (Int.ofNat k) (-1) = (s.drop k).dropLast := by
  have h1 : pyIdx (-1) s.length = s.length - 1 := by
    unfold pyIdx
    rw [if_pos (by norm_num)]
    omega
  have h2 : pyIdx (Int.ofNat k) s.length = min k s.length := by
    unfold pyIdx
    split
    · next hlt => exact absurd hlt (Int.not_lt.mpr (Int.ofNat_zero_le k))
    · rfl
  unfold pySlice
  rw [h1, h2, List.dropLast_eq_take, List.length_drop, List.drop_take]
  by_cases hk : k ≤ s.length
  · rw [min_eq_left hk]
    congr 1
    omega
  · rw [min_eq_right (by omega)]
    have hd1 : s.drop s.length = [] := List.drop_length s
    have hd2 : s.drop k = [] := List.drop_eq_nil_of_le (by omega)
    rw [hd1, hd2]
    have ht : s.length - 1 - s.length = 0 := by omega
    rw [ht, List.take_zero, List.take_nil]

/-- Claim C10: for a `.txt` placeholder whose content has the
`Description:` marker at position `i` but no newline at or after the text
start, `analyze_image` returns the text after the marker with its final
character dropped (then whitespace-stripped, as on every path): the failed
newline search yields `-1` and the slice `[start:-1]` stops one before the
end.  On the concrete file `exFs` the stored description `"cloudy"` comes
back as `"cloud"`. -/
theorem claim_C10 :
    (∀ (fs : FileSys) (path content : Str) (i : Nat),
      (ofS ".txt").isSuffixOf path = true →
      flookup fs path = some content →
      pyFind content (ofS "Description:") = Int.ofNat i →
      pyFindFrom content (ofS "\n") (i + 12) = -1 →
      analyze_image fs path = pyStrip ((content.drop (i + 12)).dropLast)) ∧
    analyze_image exFs (ofS "img.txt") = ofS "cloud" := by
  constructor
  · intro fs path content i hs hl hf hn
    have hsome : (findSubAux (ofS "Description:") content 0).isSome = true := by
      cases hfa : findSubAux (ofS "Description:") content 0 with
      | some j => rfl
      | none =>
        have hm1 : pyFind content (ofS "Description:") = -1 := by
          unfold pyFind
          rw [hfa]
        rw [hm1] at hf
        have h0 : (0 : Int) ≤ -1 := by rw [hf]; exact Int.ofNat_zero_le i
        norm_num at h0
    have hc : containsSub content (ofS "Description:") = true := by
      rw [← findSubAux_isSome (ofS "Description:") content 0]
      exact hsome
    simp only [analyze_image, hs, hl, hc, if_true]
    rw [hf]
    rw [show (Int.ofNat i + 12 : Int) = Int.ofNat (i + 12) from rfl]
    rw [show (Int.ofNat (i + 12)).toNat = i + 12 from rfl]
    rw [hn, pySlice_neg_one]
  · decide

/-- Claim C10, witness: the general statement evaluated at the concrete
placeholder file of `exFs`, whose marker sits at index 0. -/
theorem claim_C10_w : analyze_image exFs (ofS "img.txt") =
    pyStrip (((ofS "Description:cloudy").drop (0 + 12)).dropLast) :=
  claim_C10.1 exFs (ofS "img.txt") (ofS "Description:cloudy") 0
    (by decide) (by decide) (by decide) (by decide)

/-! ### Lemmas about the session store and the chat handler -/

theorem appendTrunc_getLast (msgs : List Message) (m : Message) :
    (appendTrunc msgs m).getLast? = some m := by
  rw [appendTrunc_eq, truncLast50_eq_drop]
  have hk : (msgs ++ [m]).length - 50 ≤ msgs.length := by
    simp only [List.length_append, List.length_singleton]
    omega
  rw [List.drop_append_of_le_length hk]
  exact List.getLast?_concat _

theorem slookup_updateS : ∀ (store : Sessions) (sid : Str) (msgs : List Message)
    (s : ChatSession), slookup store sid = some s →
    slookup (updateS store sid msgs) sid = some ⟨s.session_id, msgs, s.created_at⟩ := by
  intro store
  induction store with
  | nil => intro sid msgs s h; simp [slookup] at h
  | cons kv rest ih =>
    intro sid msgs s h
    by_cases hk : kv.1 = sid
    · simp only [slookup, if_pos hk] at h
      injection h with h2
      simp only [updateS, List.map_cons, if_pos hk, slookup, h2]
    · simp only [slookup, if_neg hk] at h
      simp only [updateS, List.map_cons, if_neg hk, slookup]
      exact ih sid msgs s h

theorem slookup_append_none : ∀ (store : Sessions) (sid : Str) (v : ChatSession),
    slookup store sid = none → slookup (store ++ [(sid, v)]) sid = some v := by
  intro store
  induction store with
  | nil => intro sid v _; simp [slookup]
  | cons kv rest ih =>
    intro sid v h
    by_cases hk : kv.1 = sid
    · simp [slookup, if_pos hk] at h
    · simp only [slookup, if_neg hk] at h
      simp only [List.cons_append, slookup]
      rw [if_neg hk]
      exact ih sid v h

/-- Claim C6: a `/chat` request carrying a cookie whose session exists but
with an empty (after stripping) message and no truthy image file returns the
400 error with its `error` text and leaves the session store untouched: no
user turn and no assistant turn is appended. -/
theorem claim_C6 (store : Sessions) (sid : Str) (s : ChatSession) (msg : Str)
    (img raw : Option Str) (now nowF : Str)
    (gen : Str → Option Str → Bool → Except Str Str)
    (hs : slookup store sid = some s)
    (hm : pyStrip msg = [])
    (hi : imgFalsy img = true) :
    chat store (some sid) msg img raw now nowF gen =
      (store, ChatReply.err 400 (ofS "No message or image provided")) := by
  simp only [chat, hs, hm, hi]
  simp

/-- Claim C6, witness: the guard evaluated on the concrete store `exStore`
with a whitespace-only message and no image. -/
theorem claim_C6_w :
    chat exStore (some (ofS "s1")) (ofS "  ") none none (ofS "t1") (ofS "f1") exGenOk =
      (exStore, ChatReply.err 400 (ofS "No message or image provided")) :=
  claim_C6 exStore (ofS "s1") exSess (ofS "  ") none none (ofS "t1") (ofS "f1") exGenOk
    (by decide) (by decide) (by decide)

/-- Claim C7: when the request passes validation and response generation
raises, the handler absorbs the exception: it answers the 500 error whose
`error` text wraps the exception message, and the caller's session ends
with an assistant turn whose content contains that exception text. -/
theorem claim_C7 (store : Sessions) (sid msg : Str) (img raw : Option Str)
    (now nowF : Str) (gen : Str → Option Str → Bool → Except Str Str) (e : Str)
    (hv : ((pyStrip msg).isEmpty && imgFalsy img) = false)
    (hg : gen (pyStrip msg) (image_path_of sid nowF img) (use_csv_of raw) = Except.error e) :
    (chat store (some sid) msg img raw now nowF gen).2 =
      ChatReply.err 500 (ofS "Error generating response: " ++ e) ∧
    ∃ s2 : ChatSession,
      slookup (chat store (some sid) msg img raw now nowF gen).1 sid = some s2 ∧
      ∃ m : Message, s2.messages.getLast? = some m ∧
        m.role = ofS "assistant" ∧ containsSub m.content e = true := by
  cases hs0 : slookup store sid with
  | some s =>
    have hch : chat store (some sid) msg img raw now nowF gen =
        (updateS store sid
          (add_message
            (add_message s.messages (ofS "user") (pyStrip msg) (image_path_of sid nowF img) false now)
            (ofS "assistant") (ofS "Error generating response: " ++ e) none false now),
         ChatReply.err 500 (ofS "Error generating response: " ++ e)) := by
      simp only [chat, hs0, hv, hg]
      simp
    rw [hch]
    refine ⟨rfl, ⟨s.session_id, _, s.created_at⟩, slookup_updateS store sid _ s hs0, ?_⟩
    refine ⟨⟨ofS "assistant", ofS "Error generating response: " ++ e, now, none, false⟩,
      appendTrunc_getLast _ _, rfl, ?_⟩
    exact ct_app _ (containsSub_of_isPrefixOf (isPrefixOf_self e))
  | none =>
    have hch : chat store (some sid) msg img raw now nowF gen =
        (updateS (store ++ [(sid, ⟨sid, [], now⟩)]) sid
          (add_message
            (add_message ([] : List Message) (ofS "user") (pyStrip msg) (image_path_of sid nowF img) false now)
            (ofS "assistant") (ofS "Error generating response: " ++ e) none false now),
         ChatReply.err 500 (ofS "Error generating response: " ++ e)) := by
      simp only [chat, hs0, hv, hg]
      simp
    rw [hch]
    have hs1 : slookup (store ++ [(sid, ⟨sid, [], now⟩)]) sid = some ⟨sid, [], now⟩ :=
      slookup_append_none store sid _ hs0
    refine ⟨rfl, ⟨sid, _, now⟩, slookup_updateS _ sid _ _ hs1, ?_⟩
    refine ⟨⟨ofS "assistant", ofS "Error generating response: " ++ e, now, none, false⟩,
      ?_, rfl, ?_⟩
    · exact appendTrunc_getLast
        (add_message ([] : List Message) (ofS "user") (pyStrip msg)
          (image_path_of sid nowF img) false now)
        ⟨ofS "assistant", ofS "Error generating response: " ++ e, now, none, false⟩
    · exact ct_app _ (containsSub_of_isPrefixOf (isPrefixOf_self e))

/-- Claim C7, witness: the failing generator `exGenErr` on the store
`exStore` produces the 500 reply and the assistant error turn. -/
theorem claim_C7_w :
    (chat exStore (some (ofS "s1")) (ofS "x") none none (ofS "t1") (ofS "f1") exGenErr).2 =
      ChatReply.err 500 (ofS "Error generating response: " ++ ofS "boom") ∧
    ∃ s2 : ChatSession,
      slookup (chat exStore (some (ofS "s1")) (ofS "x") none none (ofS "t1") (ofS "f1") exGenErr).1
        (ofS "s1") = some s2 ∧
      ∃ m : Message, s2.messages.getLast? = some m ∧
        m.role = ofS "assistant" ∧ containsSub m.content (ofS "boom") = true :=
  claim_C7 exStore (ofS "s1") (ofS "x") none none (ofS "t1") (ofS "f1") exGenErr (ofS "boom")
    (by decide) (by rfl)

/-- Claim C9: for every successful `/chat` submission the `message_count`
field of the reply equals the number of turns stored in the caller's session
immediately after the call, i.e. after the user turn and the assistant turn
are appended and the 50-turn truncation applied. -/
theorem claim_C9 (store : Sessions) (sid msg : Str) (img raw : Option Str)
    (now nowF : Str) (gen : Str → Option Str → Bool → Except Str Str) (r : Str)
    (hv : ((pyStrip msg).isEmpty && imgFalsy img) = false)
    (hg : gen (pyStrip msg) (image_path_of sid nowF img) (use_csv_of raw) = Except.ok r) :
    ∃ s2 : ChatSession,
      slookup (chat store (some sid) msg img raw now nowF gen).1 sid = some s2 ∧
      (chat store (some sid) msg img raw now nowF gen).2 =
        ChatReply.ok r sid s2.messages.length (use_csv_of raw) := by
  cases hs0 : slookup store sid with
  | some s =>
    have hch : chat store (some sid) msg img raw now nowF gen =
        (updateS store sid
          (add_message
            (add_message s.messages (ofS "user") (pyStrip msg) (image_path_of sid nowF img) false now)
            (ofS "assistant") r none (use_csv_of raw) now),
         ChatReply.ok r sid
           (add_message
             (add_message s.messages (ofS "user") (pyStrip msg) (image_path_of sid nowF img) false now)
             (ofS "assistant") r none (use_csv_of raw) now).length (use_csv_of raw)) := by
      simp only [chat, hs0, hv, hg]
      simp
    rw [hch]
    exact ⟨⟨s.session_id, _, s.created_at⟩, slookup_updateS store sid _ s hs0, rfl⟩
  | none =>
    have hch : chat store (some sid) msg img raw now nowF gen =
        (updateS (store ++ [(sid, ⟨sid, [], now⟩)]) sid
          (add_message
            (add_message ([] : List Message) (ofS "user") (pyStrip msg) (image_path_of sid nowF img) false now)
            (ofS "assistant") r none (use_csv_of raw) now),
         ChatReply.ok r sid
           (add_message
             (add_message ([] : List Message) (ofS "user") (pyStrip msg) (image_path_of sid nowF img) false now)
             (ofS "assistant") r none (use_csv_of raw) now).length (use_csv_of raw)) := by
      simp only [chat, hs0, hv, hg]
      simp
    rw [hch]
    have hs1 : slookup (store ++ [(sid, ⟨sid, [], now⟩)]) sid = some ⟨sid, [], now⟩ :=
      slookup_append_none store sid _ hs0
    exact ⟨⟨sid, _, now⟩, slookup_updateS _ sid _ _ hs1, rfl⟩

/-- Claim C9, witness: a successful concrete submission against `exStore`
returns `message_count` equal to the stored turn count. -/
theorem claim_C9_w :
    ∃ s2 : ChatSession,
      slookup (chat exStore (some (ofS "s1")) (ofS "x") none none (ofS "t1") (ofS "f1") exGenOk).1
        (ofS "s1") = some s2 ∧
      (chat exStore (some (ofS "s1")) (ofS "x") none none (ofS "t1") (ofS "f1") exGenOk).2 =
        ChatReply.ok (ofS "r") (ofS "s1") s2.messages.length (use_csv_of none) :=
  claim_C9 exStore (ofS "s1") (ofS "x") none none (ofS "t1") (ofS "f1") exGenOk (ofS "r")
    (by decide) (by rfl)

/-! ### Lemmas about the CSV prompt capture of the help trigger -/

theorem lower_append (a b : Str) : lower (a ++ b) = lower a ++ lower b :=
  List.map_append Char.toLower a b

theorem containsSub_nil_hay {nd : Str} (hne : nd ≠ []) : containsSub [] nd = false := by
  cases nd with
  | nil => exact absurd rfl hne
  | cons d t => simp [containsSub, List.isPrefixOf]

theorem gtr_help (t : Str)
    (h1 : containsSub (lower t) (ofS "hello") = false)
    (h2 : containsSub (lower t) (ofS "hi") = false)
    (h3 : containsSub (lower t) (ofS "help") = true) :
    generate_text_response t =
      ofS "I can:\n• Analyze CSV data\n• Process images\n• Answer questions\n• Provide Earth Observation insights" := by
  unfold generate_text_response responses
  simp only [respLoop, h1, h2, h3]
  simp

theorem lines_nc (nd : Str) (hne : nd ≠ []) (hnl : nlc ∈ nd → False) :
    ∀ (L : List (Nat × SearchHit)),
    (∀ x ∈ L, containsSub (lower (hitLine x.1 x.2)) nd = false) →
    containsSub (lower (L.flatMap fun ih => hitLine ih.1 ih.2)) nd = false := by
  intro L
  induction L with
  | nil => intro _; exact containsSub_nil_hay hne
  | cons x L' ih =>
    intro h
    rw [List.flatMap_cons, lower_append]
    have hb : lower (hitLine x.1 x.2) =
        lower (ofS (Nat.repr (x.1 + 1)) ++ ofS ". From " ++ x.2.file ++ ofS ": " ++
          pyStrDict x.2.data) ++ [nlc] := by
      unfold hitLine
      rw [lower_append]
      rfl
    rw [hb, List.append_assoc, List.singleton_append]
    refine nc_app _ _ _ _ hnl ?_ ?_
    · have hx := h x (List.mem_cons_self x L')
      rw [hb] at hx
      exact cf_left hx
    · exact ih fun a ha => h a (List.mem_cons_of_mem x ha)

theorem csv_context_nc (nd : Str) (hne : nd ≠ []) (hnl : nlc ∈ nd → False)
    (hits : List SearchHit)
    (h : ∀ x ∈ (hits.take 3).enum, containsSub (lower (hitLine x.1 x.2)) nd = false)
    (hhdr : containsSub (lower (ofS "Relevant data found:")) nd = false) :
    containsSub (lower (csv_context hits)) nd = false := by
  unfold csv_context
  rw [lower_append]
  have hh : lower (ofS "Relevant data found:\n") =
      lower (ofS "Relevant data found:") ++ [nlc] := by decide
  rw [hh, List.append_assoc, List.singleton_append]
  exact nc_app _ _ _ _ hnl hhdr (lines_nc nd hne hnl _ h)

theorem csvPrompt_nc (nd C ia T : Str)
    (hnl : nlc ∈ nd → False) (hsp : (' ' : Char) ∈ nd → False)
    (hC : containsSub (lower C) nd = false)
    (hia : containsSub (lower ia) nd = false)
    (hT : containsSub (lower T) nd = false)
    (h1 : containsSub (lower (ofS "Based on the following data and context:\n")) nd = false)
    (h2 : containsSub (lower (ofS "Image Analysis:")) nd = false)
    (h3 : containsSub (lower (ofS "User Question:")) nd = false)
    (h4 : containsSub (lower (ofS "Please provide a helpful response using the available data.")) nd = false) :
    containsSub (lower (csvPrompt C ia T)) nd = false := by
  unfold csvPrompt
  rw [lower_append, lower_append, lower_append, lower_append, lower_append, lower_append]
  have eA : lower (ofS "Based on the following data and context:\n\n") =
      lower (ofS "Based on the following data and context:\n") ++ [nlc] := by decide
  have eB : lower (ofS "\n\nImage Analysis: ") =
      nlc :: (nlc :: (lower (ofS "Image Analysis:") ++ [(' ' : Char)])) := by decide
  have eC : lower (ofS "\n\nUser Question: ") =
      nlc :: (nlc :: (lower (ofS "User Question:") ++ [(' ' : Char)])) := by decide
  have eD : lower (ofS "\n\nPlease provide a helpful response using the available data.") =
      nlc :: (nlc :: lower (ofS "Please provide a helpful response using the available data.")) := by decide
  rw [eA, eB, eC, eD]
  simp only [List.append_assoc, List.cons_append, List.singleton_append, List.nil_append]
  refine nc_app _ _ _ _ hnl h1 ?_
  refine nc_app _ _ _ _ hnl hC ?_
  refine nc_cons _ _ _ hnl ?_
  refine nc_app _ _ _ _ hsp h2 ?_
  refine nc_app _ _ _ _ hnl hia ?_
  refine nc_cons _ _ _ hnl ?_
  refine nc_app _ _ _ _ hsp h3 ?_
  refine nc_app _ _ _ _ hnl hT ?_
  refine nc_cons _ _ _ hnl ?_
  exact h4

theorem csvPrompt_help (C ia T : Str) :
    containsSub (lower (csvPrompt C ia T)) (ofS "help") = true := by
  unfold csvPrompt
  rw [lower_append]
  exact ct_app _ (by decide)

/-- Claim C5: whenever the tabular search yields at least one hit and
neither `"hello"` nor `"hi"` occurs case-insensitively in the user text, the
computed image-analysis text, or the rendered context lines of the first 3
hits, `generate_response` returns exactly the canned `"help"` reply: the CSV
prompt template's fixed phrase `"Please provide a helpful response"`
contains the trigger `"help"`, so the user's question never reaches the
default echo on this path. -/
theorem claim_C5 (csv_data : CsvData) (fs : FileSys) (text : Str) (ip : Option Str)
    (hhits : search_csv_data csv_data text ≠ [])
    (ht1 : containsSub (lower text) (ofS "hello") = false)
    (ht2 : containsSub (lower text) (ofS "hi") = false)
    (hi1 : containsSub (lower (imageAnalysisOf fs ip)) (ofS "hello") = false)
    (hi2 : containsSub (lower (imageAnalysisOf fs ip)) (ofS "hi") = false)
    (hl : ∀ x ∈ ((search_csv_data csv_data text).take 3).enum,
      containsSub (lower (hitLine x.1 x.2)) (ofS "hello") = false ∧
      containsSub (lower (hitLine x.1 x.2)) (ofS "hi") = false) :
    generate_response csv_data fs text ip true =
      ofS "I can:\n• Analyze CSV data\n• Process images\n• Answer questions\n• Provide Earth Observation insights" := by
  have hcd : csv_data.isEmpty = false := by
    rw [List.isEmpty_eq_false]
    intro hcd
    apply hhits
    rw [hcd]
    rfl
  have hre : (search_csv_data csv_data text).isEmpty = false := by
    rw [List.isEmpty_eq_false]
    exact hhits
  have hred : generate_response csv_data fs text ip true =
      generate_response_with_csv text (search_csv_data csv_data text) (imageAnalysisOf fs ip) := by
    unfold generate_response
    simp [hcd, hre]
  rw [hred]
  unfold generate_response_with_csv
  apply gtr_help
  · exact csvPrompt_nc (ofS "hello") _ _ _ (by decide) (by decide)
      (csv_context_nc (ofS "hello") (by decide) (by decide) _
        (fun x hx => (hl x hx).1) (by decide))
      hi1 ht1 (by decide) (by decide) (by decide) (by decide)
  · exact csvPrompt_nc (ofS "hi") _ _ _ (by decide) (by decide)
      (csv_context_nc (ofS "hi") (by decide) (by decide) _
        (fun x hx => (hl x hx).2) (by decide))
      hi2 ht2 (by decide) (by decide) (by decide) (by decide)
  · exact csvPrompt_help _ _ _

/-- Claim C5, witness: a concrete call with one hit (value `"foo"`, query
`"foo"`), no image, and `use_csv` set returns the canned help reply. -/
theorem claim_C5_w : generate_response exCsvFoo [] (ofS "foo") none true =
    ofS "I can:\n• Analyze CSV data\n• Process images\n• Answer questions\n• Provide Earth Observation insights" :=
  claim_C5 exCsvFoo [] (ofS "foo") none (by decide) (by decide) (by decide)
    (by decide) (by decide) (by decide)
